import Mathlib

/-!
Shallow embedding of apex/normalization/csrc/layer_norm_cuda.cpp.

The file under verification is a host-side binding for a CUDA layer-norm
kernel.  Its logic is:

* compute_n1_n2: collapses an input shape and a normalized (trailing) shape
  into two integers n1 (batch size) and n2 (reduction width).  The C++
  accumulators n1, n2 are 32-bit signed ints written through references,
  while the dimension sizes (at::IntList entries) are 64-bit integers; each
  multiplication is therefore reduced to the signed 32-bit range, which we
  model with wrap32.  The loop over normalized_shape asserts
  input.sizes()[i+idiff] == normalized_shape[i]; an assertion failure aborts
  the process, which we model by returning none.
* check_args (input/normalized_shape overload): rejects an empty
  normalized_shape, then rejects inputs whose trailing dimensions do not
  equal normalized_shape, then calls compute_n1_n2.
* check_args (gamma/beta overload): rejects a defined gamma or beta whose
  shape differs from normalized_shape; an undefined tensor is not checked.
* allocate_layer_norm_output_tensors: a template with specializations for
  int64_t and double; mean and invvar get shape [n1] and dtype kFloat in the
  generic instance, kDouble in the two specializations.
* four entry points (layer_norm, layer_norm_affine, layer_norm_gradient,
  layer_norm_gradient_affine): CHECK_INPUT (CUDA device + contiguity) on
  every tensor argument, then check_args, then output allocation and the
  kernel launch.  We record allocations and the kernel launch as an explicit
  effect trace so that "no partial execution on failure" is expressible.

Tensors are modelled by the metadata this layer inspects: sizes, dtype,
device flag, contiguity flag.  2147483648 = 2^31 and 4294967296 = 2^32.
-/

namespace ApexLayerNorm

/-- Reduction of a mathematical integer to the value obtained by storing it
in a two's-complement 32-bit signed int: the representative of its class
modulo 4294967296 lying in [-2147483648, 2147483648). -/
def wrap32 (x : Int) : Int := (x + 2147483648) % 4294967296 - 2147483648

/-- One pass of the C++ accumulation loop: the running product lives in a
32-bit int, so every multiplication is reduced by wrap32.  Models
"n *= sizes[i]" iterated over the list, starting from the int value a. -/
def foldMulInt32 (a : Int) (l : List Int) : Int :=
  l.foldl (fun acc d => wrap32 (acc * d)) a

/-- The conjunction of the assertions executed inside compute_n1_n2:
assert( input.sizes()[i+idiff] == normalized_shape[i] ) for every loop
index i < normalized_shape.size(). -/
def sizesMatch (input_sizes normalized_shape : List Int) (idiff : Nat) : Bool :=
  (List.range normalized_shape.length).all
    (fun i => input_sizes.getD (i + idiff) 0 == normalized_shape.getD i 0)

/-- compute_n1_n2 from the source.  idiff = input.ndimension() -
normalized_shape.size(); n2 is accumulated over normalized_shape and n1 over
the first idiff input sizes, both in 32-bit ints starting from 1.  The
parameters n1 and n2 model the caller's variables passed by reference
(uninitialized at the call sites); the body assigns both before any read,
so they never influence the result.  none models the abort of a failed
assert. -/
def compute_n1_n2 (input_sizes normalized_shape : List Int) (n1 n2 : Int) :
    Option (Int × Int) :=
  if sizesMatch input_sizes normalized_shape
      (input_sizes.length - normalized_shape.length) then
    some (foldMulInt32 1
            (input_sizes.take (input_sizes.length - normalized_shape.length)),
          foldMulInt32 1 normalized_shape)
  else
    none

/-- The errors thrown by this binding layer (std::runtime_error /
AT_ASSERTM), carrying exactly the data the C++ message embeds. -/
inductive LayerNormError where
  | emptyNormalizedShape (normalized_shape : List Int)
  | shapeMismatch (normalized_shape input_shape : List Int)
  | gammaShapeMismatch (gamma_shape normalized_shape : List Int)
  | betaShapeMismatch (beta_shape normalized_shape : List Int)
  | notOnDevice (tensor : String)
  | notContiguous (tensor : String)
  | assertionFailure
  deriving DecidableEq

/-- Rendering of an at::IntList by operator<<, as used in the messages. -/
def renderShape (l : List Int) : String :=
  "[" ++ String.intercalate ", " (l.map toString) ++ "]"

/-- The message text each error carries, mirroring the C++ stringstream
content (CHECK_CUDA / CHECK_CONTIGUOUS produce assertion messages naming
the tensor). -/
def LayerNormError.message : LayerNormError → String
  | .emptyNormalizedShape ns =>
      "Expected normalized_shape to be at least 1-dimensional, i.e., " ++
      "containing at least one element, but got normalized_shape=" ++
      renderShape ns
  | .shapeMismatch ns input_shape =>
      "Given normalized_shape=" ++ renderShape ns ++
      ", expected input with shape [*" ++
      String.join (ns.map (fun d => ", " ++ toString d)) ++
      "], but got input of size" ++ renderShape input_shape
  | .gammaShapeMismatch gs ns =>
      "Expected gamma to be of same shape as normalized_shape, but got " ++
      "gamma of shape " ++ renderShape gs ++ " and normalized_shape=" ++
      renderShape ns
  | .betaShapeMismatch bs ns =>
      "Expected beta to be of same shape as normalized_shape, but got " ++
      "beta of shape " ++ renderShape bs ++ " and normalized_shape=" ++
      renderShape ns
  | .notOnDevice t => t ++ " must be a CUDA tensor"
  | .notContiguous t => t ++ " must be contiguous"
  | .assertionFailure => "Assertion failed"

/-- check_args(input, normalized_shape, n1, n2) from the source: rejects an
empty normalized_shape, then a length/trailing-dimension mismatch
(input_shape.slice(input_ndim - normalized_ndim).equals(normalized_shape)),
then calls compute_n1_n2.  The n1, n2 parameters model the by-reference
variables handed through to compute_n1_n2. -/
def check_args (input_sizes normalized_shape : List Int) (n1 n2 : Int) :
    Except LayerNormError (Option (Int × Int)) :=
  if normalized_shape.length < 1 then
    .error (.emptyNormalizedShape normalized_shape)
  else if input_sizes.length < normalized_shape.length ∨
      input_sizes.drop (input_sizes.length - normalized_shape.length) ≠
        normalized_shape then
    .error (.shapeMismatch normalized_shape input_sizes)
  else
    .ok (compute_n1_n2 input_sizes normalized_shape n1 n2)

/-- check_args(normalized_shape, gamma, beta) from the source.  gamma and
beta are at::Tensor values that may be undefined; at this layer only
definedness and sizes are inspected, so they are modelled as
Option (List Int) (none = undefined tensor).  The C++ runs two sequential
ifs, gamma first; a throw in the first skips the second. -/
def check_args_affine (normalized_shape : List Int)
    (gamma beta : Option (List Int)) : Except LayerNormError Unit :=
  match gamma with
  | some gs =>
    if gs ≠ normalized_shape then
      .error (.gammaShapeMismatch gs normalized_shape)
    else
      match beta with
      | some bs =>
        if bs ≠ normalized_shape then
          .error (.betaShapeMismatch bs normalized_shape)
        else .ok ()
      | none => .ok ()
  | none =>
    match beta with
    | some bs =>
      if bs ≠ normalized_shape then
        .error (.betaShapeMismatch bs normalized_shape)
      else .ok ()
    | none => .ok ()

/-- check_args(input, normalized_shape, gamma, beta, n1, n2) from the
source: the shape overload followed by the affine overload. -/
def check_args_with_affine (input_sizes normalized_shape : List Int)
    (gamma beta : Option (List Int)) (n1 n2 : Int) :
    Except LayerNormError (Option (Int × Int)) :=
  match check_args input_sizes normalized_shape n1 n2 with
  | .error e => .error e
  | .ok r =>
    match check_args_affine normalized_shape gamma beta with
    | .error e => .error e
    | .ok _ => .ok r

/-- The element types covered by AT_DISPATCH_ALL_TYPES_AND_HALF. -/
inductive ScalarType where
  | Byte | Char | Short | Int | Long | Half | Float | Double
  deriving DecidableEq

/-- The tensor metadata this binding layer reads: sizes, element type,
device residency and contiguity. -/
structure Tensor where
  sizes : List Int
  dtype : ScalarType
  is_cuda : Bool
  is_contiguous : Bool
  deriving DecidableEq

/-- at::empty_like(t): fresh contiguous buffer with t's sizes, dtype and
device. -/
def empty_like (t : Tensor) : Tensor :=
  { sizes := t.sizes, dtype := t.dtype, is_cuda := t.is_cuda,
    is_contiguous := true }

/-- at::empty({n1}, like.options().dtype(d)): a fresh 1-dimensional tensor
of length n1 with dtype d on like's device. -/
def empty1 (n1 : Int) (like : Tensor) (d : ScalarType) : Tensor :=
  { sizes := [n1], dtype := d, is_cuda := like.is_cuda,
    is_contiguous := true }

/-- The generic template instance of allocate_layer_norm_output_tensors:
output = empty_like(input); mean = empty({n1}, kFloat); invvar =
empty_like(mean). -/
def allocate_layer_norm_output_tensors_generic (input : Tensor) (n1 : Int) :
    Tensor × Tensor × Tensor :=
  let output := empty_like input
  let mean := empty1 n1 input .Float
  let invvar := empty_like mean
  (output, mean, invvar)

/-- The int64_t specialization: mean and invvar in kDouble. -/
def allocate_layer_norm_output_tensors_int64 (input : Tensor) (n1 : Int) :
    Tensor × Tensor × Tensor :=
  let output := empty_like input
  let mean := empty1 n1 input .Double
  let invvar := empty_like mean
  (output, mean, invvar)

/-- The double specialization: mean and invvar in kDouble. -/
def allocate_layer_norm_output_tensors_double (input : Tensor) (n1 : Int) :
    Tensor × Tensor × Tensor :=
  let output := empty_like input
  let mean := empty1 n1 input .Double
  let invvar := empty_like mean
  (output, mean, invvar)

/-- AT_DISPATCH_ALL_TYPES_AND_HALF over the allocation call: scalar_t is the
input's element type, so template specialization sends int64_t (Long) and
double (Double) to the kDouble instances and every other dispatched type to
the generic kFloat instance. -/
def allocate_layer_norm_output_tensors (input : Tensor) (n1 : Int) :
    Tensor × Tensor × Tensor :=
  match input.dtype with
  | .Long => allocate_layer_norm_output_tensors_int64 input n1
  | .Double => allocate_layer_norm_output_tensors_double input n1
  | _ => allocate_layer_norm_output_tensors_generic input n1

/-- CHECK_INPUT(x) = CHECK_CUDA(x); CHECK_CONTIGUOUS(x): AT_ASSERTM on
x.type().is_cuda() then on x.is_contiguous(), naming the tensor. -/
def check_input (name : String) (t : Tensor) : Except LayerNormError Unit :=
  if !t.is_cuda then .error (.notOnDevice name)
  else if !t.is_contiguous then .error (.notContiguous name)
  else .ok ()

/-- Observable side effects of an entry point: buffer allocations and the
launch of the CUDA kernel. -/
inductive Effect where
  | alloc (t : Tensor)
  | kernelLaunch (n1 n2 : Int)
  deriving DecidableEq

/-- Entry point layer_norm(input, normalized_shape, epsilon): CHECK_INPUT,
check_args, dtype-dispatched output allocation, kernel launch, returning
{output, mean, invvar}.  epsilon is forwarded to the kernel untouched and
is omitted.  n1₀ n2₀ model the uninitialized locals "int n1,n2".  The first
component is the trace of allocations and launches the call performed. -/
def layer_norm (input : Tensor) (normalized_shape : List Int)
    (n1₀ n2₀ : Int) :
    List Effect × Except LayerNormError (Tensor × Tensor × Tensor) :=
  match check_input "input" input with
  | .error e => ([], .error e)
  | .ok _ =>
    match check_args input.sizes normalized_shape n1₀ n2₀ with
    | .error e => ([], .error e)
    | .ok none => ([], .error .assertionFailure)
    | .ok (some (n1, n2)) =>
      let omi := allocate_layer_norm_output_tensors input n1
      ([.alloc omi.1, .alloc omi.2.1, .alloc omi.2.2, .kernelLaunch n1 n2],
       .ok omi)

/-- Entry point layer_norm_affine(input, normalized_shape, gamma, beta,
epsilon), with the same conventions as layer_norm. -/
def layer_norm_affine (input : Tensor) (normalized_shape : List Int)
    (gamma beta : Tensor) (n1₀ n2₀ : Int) :
    List Effect × Except LayerNormError (Tensor × Tensor × Tensor) :=
  match check_input "input" input with
  | .error e => ([], .error e)
  | .ok _ =>
    match check_input "gamma" gamma with
    | .error e => ([], .error e)
    | .ok _ =>
      match check_input "beta" beta with
      | .error e => ([], .error e)
      | .ok _ =>
        match check_args_with_affine input.sizes normalized_shape
            (some gamma.sizes) (some beta.sizes) n1₀ n2₀ with
        | .error e => ([], .error e)
        | .ok none => ([], .error .assertionFailure)
        | .ok (some (n1, n2)) =>
          let omi := allocate_layer_norm_output_tensors input n1
          ([.alloc omi.1, .alloc omi.2.1, .alloc omi.2.2,
            .kernelLaunch n1 n2],
           .ok omi)

/-- Entry point layer_norm_gradient(dout, mean, invvar, input,
normalized_shape, epsilon): four CHECK_INPUTs, check_args, allocation of
grad_input = empty_like(input), kernel launch. -/
def layer_norm_gradient (dout mean invvar input : Tensor)
    (normalized_shape : List Int) (n1₀ n2₀ : Int) :
    List Effect × Except LayerNormError Tensor :=
  match check_input "dout" dout with
  | .error e => ([], .error e)
  | .ok _ =>
    match check_input "mean" mean with
    | .error e => ([], .error e)
    | .ok _ =>
      match check_input "invvar" invvar with
      | .error e => ([], .error e)
      | .ok _ =>
        match check_input "input" input with
        | .error e => ([], .error e)
        | .ok _ =>
          match check_args input.sizes normalized_shape n1₀ n2₀ with
          | .error e => ([], .error e)
          | .ok none => ([], .error .assertionFailure)
          | .ok (some (n1, n2)) =>
            let grad_input := empty_like input
            ([.alloc grad_input, .kernelLaunch n1 n2], .ok grad_input)

/-- Entry point layer_norm_gradient_affine(dout, mean, invvar, input,
normalized_shape, gamma, beta, epsilon): six CHECK_INPUTs, combined
check_args, allocation of grad_input, grad_gamma, grad_beta, kernel
launch. -/
def layer_norm_gradient_affine (dout mean invvar input : Tensor)
    (normalized_shape : List Int) (gamma beta : Tensor) (n1₀ n2₀ : Int) :
    List Effect × Except LayerNormError (Tensor × Tensor × Tensor) :=
  match check_input "dout" dout with
  | .error e => ([], .error e)
  | .ok _ =>
    match check_input "mean" mean with
    | .error e => ([], .error e)
    | .ok _ =>
      match check_input "invvar" invvar with
      | .error e => ([], .error e)
      | .ok _ =>
        match check_input "input" input with
        | .error e => ([], .error e)
        | .ok _ =>
          match check_input "gamma" gamma with
          | .error e => ([], .error e)
          | .ok _ =>
            match check_input "beta" beta with
            | .error e => ([], .error e)
            | .ok _ =>
              match check_args_with_affine input.sizes normalized_shape
                  (some gamma.sizes) (some beta.sizes) n1₀ n2₀ with
              | .error e => ([], .error e)
              | .ok none => ([], .error .assertionFailure)
              | .ok (some (n1, n2)) =>
                let grad_input := empty_like input
                let grad_gamma := empty_like gamma
                let grad_beta := empty_like beta
                ([.alloc grad_input, .alloc grad_gamma, .alloc grad_beta,
                  .kernelLaunch n1 n2],
                 .ok (grad_input, grad_gamma, grad_beta))

/-! Helper lemmas about wrap32, the wrapping fold, and list indexing. -/

theorem wrap32_modEq (x : Int) : wrap32 x % 4294967296 = x % 4294967296 := by
  unfold wrap32
  omega

theorem wrap32_bounds (x : Int) :
    -2147483648 ≤ wrap32 x ∧ wrap32 x < 2147483648 := by
  unfold wrap32
  omega

theorem wrap32_eq_self (x : Int) (h1 : -2147483648 ≤ x)
    (h2 : x < 2147483648) : wrap32 x = x := by
  unfold wrap32
  omega

theorem wrap32_eq_self_iff (x : Int) :
    wrap32 x = x ↔ (-2147483648 ≤ x ∧ x < 2147483648) := by
  unfold wrap32
  omega

theorem wrap32_congr (x y : Int)
    (h : x % 4294967296 = y % 4294967296) : wrap32 x = wrap32 y := by
  unfold wrap32
  omega

theorem wrap32_mul_left (x y : Int) :
    wrap32 (wrap32 x * y) = wrap32 (x * y) := by
  apply wrap32_congr
  rw [Int.mul_emod, wrap32_modEq, ← Int.mul_emod]

theorem foldMulInt32_wrap (l : List Int) :
    ∀ a : Int, foldMulInt32 (wrap32 a) l = wrap32 (a * l.prod) := by
  induction l with
  | nil =>
    intro a
    simp [foldMulInt32]
  | cons x xs ih =>
    intro a
    have hstep : foldMulInt32 (wrap32 a) (x :: xs) =
        foldMulInt32 (wrap32 (wrap32 a * x)) xs := rfl
    rw [hstep, wrap32_mul_left, ih (a * x), List.prod_cons, mul_assoc]

theorem foldMulInt32_one (l : List Int) : foldMulInt32 1 l = wrap32 l.prod := by
  have h := foldMulInt32_wrap l 1
  rw [show wrap32 1 = 1 by decide, one_mul] at h
  exact h

theorem getD_drop (k : Nat) :
    ∀ (l : List Int) (i : Nat), (l.drop k).getD i 0 = l.getD (k + i) 0 := by
  induction k with
  | zero => intro l i; simp
  | succ k ih =>
    intro l i
    cases l with
    | nil => simp
    | cons x xs =>
      rw [List.drop_succ_cons, ih xs i,
          show k + 1 + i = (k + i) + 1 from by omega, List.getD_cons_succ]

theorem sizesMatch_of_drop_eq (s ns : List Int)
    (h : s.drop (s.length - ns.length) = ns) :
    sizesMatch s ns (s.length - ns.length) = true := by
  unfold sizesMatch
  simp only [List.all_eq_true, List.mem_range, beq_iff_eq]
  intro i hi
  rw [Nat.add_comm, ← getD_drop, h]

theorem compute_n1_n2_of_drop_eq (s ns : List Int) (a b : Int)
    (h : s.drop (s.length - ns.length) = ns) :
    compute_n1_n2 s ns a b =
      some (wrap32 (s.take (s.length - ns.length)).prod, wrap32 ns.prod) := by
  unfold compute_n1_n2
  rw [if_pos (sizesMatch_of_drop_eq s ns h), foldMulInt32_one, foldMulInt32_one]

theorem check_args_valid (s ns : List Int) (a b : Int) (hne : ns ≠ [])
    (hlen : ns.length ≤ s.length)
    (h : s.drop (s.length - ns.length) = ns) :
    check_args s ns a b =
      .ok (some (wrap32 (s.take (s.length - ns.length)).prod,
                 wrap32 ns.prod)) := by
  unfold check_args
  rw [if_neg (by
        have hp : ns.length ≠ 0 := fun h0 => hne (List.length_eq_zero.mp h0)
        omega),
      if_neg (by push_neg; exact ⟨hlen, h⟩),
      compute_n1_n2_of_drop_eq s ns a b h]

theorem prod_take_mul_ns (s ns : List Int)
    (h : s.drop (s.length - ns.length) = ns) :
    (s.take (s.length - ns.length)).prod * ns.prod = s.prod := by
  have h2 := List.prod_take_mul_prod_drop s (s.length - ns.length)
  rw [h] at h2
  exact h2

/-! Claim theorems. -/

/-- C1 (counterexample): the claim "for every non-empty true suffix pair,
check_args returns (n1, n2) with n1 * n2 = product(inputShape)" fails at
inputShape = [2147483648, 2], normalizedShape = [2]: the 32-bit accumulator
stores n1 = -2147483648 and (-2147483648) * 2 = -4294967296, not the true
product 4294967296. -/
theorem check_args_product_counterexample :
    check_args [2147483648, 2] [2] 0 0 = .ok (some (-2147483648, 2)) ∧
    (-2147483648 : Int) * 2 ≠ ([2147483648, 2] : List Int).prod :=
  ⟨rfl, by decide⟩

/-- C1 (amended): for every pair in which normalizedShape is a non-empty
suffix of inputShape, check_args returns (n1, n2) with n1 * n2 congruent to
product(inputShape) modulo 2^32; the product is exact whenever the leading
and trailing partial products each fit in a 32-bit signed int. -/
theorem check_args_n1_n2_product (s ns : List Int) (a b : Int)
    (hne : ns ≠ []) (hlen : ns.length ≤ s.length)
    (hsuf : s.drop (s.length - ns.length) = ns) :
    ∃ n1 n2 : Int,
      check_args s ns a b = .ok (some (n1, n2)) ∧
      (n1 * n2) % 4294967296 = s.prod % 4294967296 ∧
      ((-2147483648 ≤ (s.take (s.length - ns.length)).prod ∧
        (s.take (s.length - ns.length)).prod < 2147483648 ∧
        -2147483648 ≤ ns.prod ∧ ns.prod < 2147483648) →
        n1 * n2 = s.prod) := by
  have hprod := prod_take_mul_ns s ns hsuf
  refine ⟨wrap32 (s.take (s.length - ns.length)).prod, wrap32 ns.prod,
    check_args_valid s ns a b hne hlen hsuf, ?_, ?_⟩
  · rw [← hprod, Int.mul_emod, wrap32_modEq, wrap32_modEq, ← Int.mul_emod]
  · rintro ⟨h1, h2, h3, h4⟩
    rw [wrap32_eq_self _ h1 h2, wrap32_eq_self _ h3 h4, hprod]

/-- C1 (witness): the amended theorem at inputShape = [4, 8],
normalizedShape = [8]. -/
theorem check_args_n1_n2_product_witness :
    ([8] : List Int) ≠ [] ∧
    ([8] : List Int).length ≤ ([4, 8] : List Int).length ∧
    ([4, 8] : List Int).drop
      (([4, 8] : List Int).length - ([8] : List Int).length) = [8] ∧
    (∃ n1 n2 : Int,
      check_args [4, 8] [8] 0 0 = .ok (some (n1, n2)) ∧
      (n1 * n2) % 4294967296 = ([4, 8] : List Int).prod % 4294967296 ∧
      ((-2147483648 ≤ (([4, 8] : List Int).take
          (([4, 8] : List Int).length - ([8] : List Int).length)).prod ∧
        (([4, 8] : List Int).take
          (([4, 8] : List Int).length - ([8] : List Int).length)).prod <
          2147483648 ∧
        -2147483648 ≤ ([8] : List Int).prod ∧
        ([8] : List Int).prod < 2147483648) →
        n1 * n2 = ([4, 8] : List Int).prod)) :=
  ⟨by decide, by decide, by decide,
   check_args_n1_n2_product [4, 8] [8] 0 0 (by decide) (by decide)
     (by decide)⟩

/-- C2 (counterexample): the claim says n2 is the plain left-fold product of
normalizedShape, but at the valid pair inputShape = normalizedShape =
[3000000000] the code returns n2 = -1294967296 while the left-fold product
is 3000000000: the accumulation wraps at 32 bits. -/
theorem check_args_foldl_counterexample :
    check_args [3000000000] [3000000000] 0 0 =
      .ok (some (1, -1294967296)) ∧
    List.foldl (· * ·) 1 [(3000000000 : Int)] ≠ -1294967296 :=
  ⟨rfl, by decide⟩

/-- C2 (amended): check_args computes n2 as the left fold (starting from 1)
of 32-bit wrapping multiplication over normalizedShape and n1 as the same
fold over the prefix of inputShape of length len(inputShape) -
len(normalizedShape), with no special-casing of zero or negative sizes; in
particular it returns (4, 8) on ([4, 8], [8]) and (2, 24) on
([2, 3, 8], [3, 8]). -/
theorem check_args_foldl_wrap (s ns : List Int) (a b : Int)
    (hne : ns ≠ []) (hlen : ns.length ≤ s.length)
    (hsuf : s.drop (s.length - ns.length) = ns) :
    check_args s ns a b =
      .ok (some
        (List.foldl (fun acc d => wrap32 (acc * d)) 1
          (s.take (s.length - ns.length)),
         List.foldl (fun acc d => wrap32 (acc * d)) 1 ns)) ∧
    check_args [4, 8] [8] a b = .ok (some (4, 8)) ∧
    check_args [2, 3, 8] [3, 8] a b = .ok (some (2, 24)) := by
  refine ⟨?_, rfl, rfl⟩
  rw [check_args_valid s ns a b hne hlen hsuf, ← foldMulInt32_one,
      ← foldMulInt32_one]
  rfl

/-- C2 (witness): the amended theorem at inputShape = [6, 5],
normalizedShape = [5]. -/
theorem check_args_foldl_wrap_witness :
    ([5] : List Int) ≠ [] ∧
    ([5] : List Int).length ≤ ([6, 5] : List Int).length ∧
    ([6, 5] : List Int).drop
      (([6, 5] : List Int).length - ([5] : List Int).length) = [5] ∧
    (check_args [6, 5] [5] 0 0 =
      .ok (some
        (List.foldl (fun acc d => wrap32 (acc * d)) 1
          (([6, 5] : List Int).take
            (([6, 5] : List Int).length - ([5] : List Int).length)),
         List.foldl (fun acc d => wrap32 (acc * d)) 1 [5])) ∧
     check_args [4, 8] [8] 0 0 = .ok (some (4, 8)) ∧
     check_args [2, 3, 8] [3, 8] 0 0 = .ok (some (2, 24))) :=
  ⟨by decide, by decide, by decide,
   check_args_foldl_wrap [6, 5] [5] 0 0 (by decide) (by decide) (by decide)⟩

/-- C9: compute_n1_n2 accumulates in 32-bit signed ints while the dimension
sizes are wider integers: on every valid pair it returns the wrap32 images
of the true prefix and suffix products; each returned value is congruent to
the true product modulo 2^32, and equals it exactly if and only if that
product lies in [-2^31, 2^31). -/
theorem compute_n1_n2_wraps_modulo (s ns : List Int) (a b : Int)
    (hsuf : s.drop (s.length - ns.length) = ns) :
    compute_n1_n2 s ns a b =
      some (wrap32 (s.take (s.length - ns.length)).prod, wrap32 ns.prod) ∧
    wrap32 (s.take (s.length - ns.length)).prod % 4294967296 =
      (s.take (s.length - ns.length)).prod % 4294967296 ∧
    wrap32 ns.prod % 4294967296 = ns.prod % 4294967296 ∧
    (wrap32 (s.take (s.length - ns.length)).prod =
        (s.take (s.length - ns.length)).prod ↔
      (-2147483648 ≤ (s.take (s.length - ns.length)).prod ∧
       (s.take (s.length - ns.length)).prod < 2147483648)) ∧
    (wrap32 ns.prod = ns.prod ↔
      (-2147483648 ≤ ns.prod ∧ ns.prod < 2147483648)) :=
  ⟨compute_n1_n2_of_drop_eq s ns a b hsuf, wrap32_modEq _, wrap32_modEq _,
   wrap32_eq_self_iff _, wrap32_eq_self_iff _⟩

/-- C9 (witness): the theorem at inputShape = [65536, 65536, 2],
normalizedShape = [2], where the prefix product 2^32 wraps to 0. -/
theorem compute_n1_n2_wraps_modulo_witness :
    ([65536, 65536, 2] : List Int).drop
      (([65536, 65536, 2] : List Int).length - ([2] : List Int).length) =
      [2] ∧
    (compute_n1_n2 [65536, 65536, 2] [2] 0 0 =
      some (wrap32 (([65536, 65536, 2] : List Int).take
              (([65536, 65536, 2] : List Int).length -
                ([2] : List Int).length)).prod,
            wrap32 ([2] : List Int).prod) ∧
    wrap32 (([65536, 65536, 2] : List Int).take
        (([65536, 65536, 2] : List Int).length -
          ([2] : List Int).length)).prod % 4294967296 =
      (([65536, 65536, 2] : List Int).take
        (([65536, 65536, 2] : List Int).length -
          ([2] : List Int).length)).prod % 4294967296 ∧
    wrap32 ([2] : List Int).prod % 4294967296 =
      ([2] : List Int).prod % 4294967296 ∧
    (wrap32 (([65536, 65536, 2] : List Int).take
          (([65536, 65536, 2] : List Int).length -
            ([2] : List Int).length)).prod =
        (([65536, 65536, 2] : List Int).take
          (([65536, 65536, 2] : List Int).length -
            ([2] : List Int).length)).prod ↔
      (-2147483648 ≤ (([65536, 65536, 2] : List Int).take
          (([65536, 65536, 2] : List Int).length -
            ([2] : List Int).length)).prod ∧
       (([65536, 65536, 2] : List Int).take
          (([65536, 65536, 2] : List Int).length -
            ([2] : List Int).length)).prod < 2147483648)) ∧
    (wrap32 ([2] : List Int).prod = ([2] : List Int).prod ↔
      (-2147483648 ≤ ([2] : List Int).prod ∧
       ([2] : List Int).prod < 2147483648))) :=
  ⟨by decide, compute_n1_n2_wraps_modulo [65536, 65536, 2] [2] 0 0 (by decide)⟩

/-- C3: for every inputShape, check_args with an empty normalizedShape
fails with the emptyNormalizedShape error carrying the offending shape, no
(n1, n2) is produced, and the message names the offending
normalized_shape. -/
theorem check_args_empty_normalized_shape (s : List Int) (a b : Int) :
    check_args s [] a b = .error (.emptyNormalizedShape []) ∧
    LayerNormError.message (.emptyNormalizedShape []) =
      "Expected normalized_shape to be at least 1-dimensional, i.e., " ++
      "containing at least one element, but got normalized_shape=[]" :=
  ⟨rfl, rfl⟩

/-- C4: for every non-empty normalizedShape, if inputShape has fewer
dimensions or its trailing dimensions differ from normalizedShape,
check_args fails with the shapeMismatch error carrying both shapes (whose
message embeds both shapes and the expected pattern). -/
theorem check_args_shape_mismatch (s ns : List Int) (a b : Int)
    (hne : ns ≠ [])
    (h : s.length < ns.length ∨
      s.drop (s.length - ns.length) ≠ ns) :
    check_args s ns a b = .error (.shapeMismatch ns s) := by
  unfold check_args
  rw [if_neg (by
        have hp : ns.length ≠ 0 := fun h0 => hne (List.length_eq_zero.mp h0)
        omega),
      if_pos h]

/-- C4 (witness): the theorem at inputShape = [], normalizedShape = [5],
together with the rendered message. -/
theorem check_args_shape_mismatch_witness :
    ([5] : List Int) ≠ [] ∧
    (([] : List Int).length < ([5] : List Int).length ∨
      ([] : List Int).drop
        (([] : List Int).length - ([5] : List Int).length) ≠ [5]) ∧
    check_args [] [5] 0 0 = .error (.shapeMismatch [5] []) ∧
    LayerNormError.message (.shapeMismatch [5] []) =
      "Given normalized_shape=[5], expected input with shape [*, 5], " ++
      "but got input of size[]" :=
  ⟨by decide, by decide,
   check_args_shape_mismatch [] [5] 0 0 (by decide) (by decide), rfl⟩

/-- C5: check_args_affine fails exactly on a provided gamma or beta whose
shape differs from normalized_shape, naming the offending tensor in the
error; an absent tensor is never an error, and gamma is checked first,
independently of beta. -/
theorem check_args_affine_cases (ns : List Int)
    (gamma beta : Option (List Int)) :
    ((∀ gs ∈ gamma, gs = ns) → (∀ bs ∈ beta, bs = ns) →
      check_args_affine ns gamma beta = .ok ()) ∧
    (∀ gs ∈ gamma, gs ≠ ns →
      check_args_affine ns gamma beta =
        .error (.gammaShapeMismatch gs ns)) ∧
    ((∀ gs ∈ gamma, gs = ns) → ∀ bs ∈ beta, bs ≠ ns →
      check_args_affine ns gamma beta =
        .error (.betaShapeMismatch bs ns)) := by
  rcases gamma with _ | gs <;> rcases beta with _ | bs <;>
    simp only [check_args_affine, Option.mem_def, Option.some.injEq] <;>
    refine ⟨?_, ?_, ?_⟩ <;> intros <;> subst_vars <;> simp_all

/-- C5 (witness): validateAffineParams([8], scale = shape [4],
shift = shape [8]) fails naming gamma with both shapes. -/
theorem check_args_affine_cases_witness :
    ([4] : List Int) ∈ (some [4] : Option (List Int)) ∧
    ([4] : List Int) ≠ [8] ∧
    check_args_affine [8] (some [4]) (some [8]) =
      .error (.gammaShapeMismatch [4] [8]) :=
  ⟨rfl, by decide,
   (check_args_affine_cases [8] (some [4]) (some [8])).2.1 [4] rfl
     (by decide)⟩

/-- C6: for every input tensor and n1, the dispatched allocation gives mean
and invvar the shape [n1] and a common dtype that is double precision when
the input element type is double or int64 and single precision otherwise,
while output mirrors the input's sizes and dtype. -/
theorem allocate_output_tensors_spec (input : Tensor) (n1 : Int) :
    (allocate_layer_norm_output_tensors input n1).2.1.sizes = [n1] ∧
    (allocate_layer_norm_output_tensors input n1).2.2.sizes = [n1] ∧
    (allocate_layer_norm_output_tensors input n1).2.2.dtype =
      (allocate_layer_norm_output_tensors input n1).2.1.dtype ∧
    (allocate_layer_norm_output_tensors input n1).2.1.dtype =
      (if input.dtype = .Double ∨ input.dtype = .Long then
        ScalarType.Double else ScalarType.Float) ∧
    (allocate_layer_norm_output_tensors input n1).1.sizes = input.sizes ∧
    (allocate_layer_norm_output_tensors input n1).1.dtype = input.dtype := by
  rcases input with ⟨sizes, dtype, hc, hg⟩
  cases dtype <;> exact ⟨rfl, rfl, rfl, rfl, rfl, rfl⟩

/-- C8: compute_n1_n2 and check_args are pure and deterministic: the result
depends only on (inputShape, normalizedShape), not on the values the
caller's by-reference n1/n2 variables held before the call, and no state
beyond those out-parameters exists in the model. -/
theorem compute_n1_n2_pure (s ns : List Int) (a b a2 b2 : Int) :
    compute_n1_n2 s ns a b = compute_n1_n2 s ns a2 b2 ∧
    check_args s ns a b = check_args s ns a2 b2 :=
  ⟨rfl, rfl⟩

/-- C10: whenever compute_n1_n2 is reached through check_args, the
suffix-equality guard already implies every assertion
input.sizes()[i+idiff] == normalized_shape[i] inside it, so check_args can
never return the aborted (assert-failed) outcome. -/
theorem check_args_assert_unreachable (s ns : List Int) (a b : Int) :
    check_args s ns a b ≠ .ok none := by
  unfold check_args
  split
  · simp
  · split
    · simp
    · rename_i hcond
      push_neg at hcond
      rw [compute_n1_n2_of_drop_eq s ns a b hcond.2]
      simp

/-- C7: in each of the four entry points, a call fails (with any of the
device, contiguity, empty-normalized-shape or shape-mismatch errors) if and
only if its trace of allocations and kernel launches is empty: every
validation error is raised before any output-buffer allocation and before
the kernel dispatch, so a failing call performs no partial execution. -/
theorem entry_points_fail_without_effects :
    (∀ (input : Tensor) (ns : List Int) (a b : Int),
      ((layer_norm input ns a b).2.isOk = false ↔
        (layer_norm input ns a b).1 = [])) ∧
    (∀ (input : Tensor) (ns : List Int) (gamma beta : Tensor) (a b : Int),
      ((layer_norm_affine input ns gamma beta a b).2.isOk = false ↔
        (layer_norm_affine input ns gamma beta a b).1 = [])) ∧
    (∀ (dout mean invvar input : Tensor) (ns : List Int) (a b : Int),
      ((layer_norm_gradient dout mean invvar input ns a b).2.isOk = false ↔
        (layer_norm_gradient dout mean invvar input ns a b).1 = [])) ∧
    (∀ (dout mean invvar input : Tensor) (ns : List Int)
        (gamma beta : Tensor) (a b : Int),
      ((layer_norm_gradient_affine dout mean invvar input ns gamma beta
          a b).2.isOk = false ↔
        (layer_norm_gradient_affine dout mean invvar input ns gamma beta
          a b).1 = [])) := by
  refine ⟨?_, ?_, ?_, ?_⟩
  · intro input ns a b
    unfold layer_norm
    rcases check_input "input" input with e | u
    · simp [Except.isOk, Except.toBool]
    · rcases check_args input.sizes ns a b with e | (_ | ⟨n1, n2⟩) <;>
        simp [Except.isOk, Except.toBool]
  · intro input ns gamma beta a b
    unfold layer_norm_affine
    rcases check_input "input" input with e | u
    · simp [Except.isOk, Except.toBool]
    · rcases check_input "gamma" gamma with e | u2
      · simp [Except.isOk, Except.toBool]
      · rcases check_input "beta" beta with e | u3
        · simp [Except.isOk, Except.toBool]
        · rcases check_args_with_affine input.sizes ns (some gamma.sizes)
              (some beta.sizes) a b with e | (_ | ⟨n1, n2⟩) <;>
            simp [Except.isOk, Except.toBool]
  · intro dout mean invvar input ns a b
    unfold layer_norm_gradient
    rcases check_input "dout" dout with e | u
    · simp [Except.isOk, Except.toBool]
    · rcases check_input "mean" mean with e | u2
      · simp [Except.isOk, Except.toBool]
      · rcases check_input "invvar" invvar with e | u3
        · simp [Except.isOk, Except.toBool]
        · rcases check_input "input" input with e | u4
          · simp [Except.isOk, Except.toBool]
          · rcases check_args input.sizes ns a b with e | (_ | ⟨n1, n2⟩) <;>
              simp [Except.isOk, Except.toBool]
  · intro dout mean invvar input ns gamma beta a b
    unfold layer_norm_gradient_affine
    rcases check_input "dout" dout with e | u
    · simp [Except.isOk, Except.toBool]
    · rcases check_input "mean" mean with e | u2
      · simp [Except.isOk, Except.toBool]
      · rcases check_input "invvar" invvar with e | u3
        · simp [Except.isOk, Except.toBool]
        · rcases check_input "input" input with e | u4
          · simp [Except.isOk, Except.toBool]
          · rcases check_input "gamma" gamma with e | u5
            · simp [Except.isOk, Except.toBool]
            · rcases check_input "beta" beta with e | u6
              · simp [Except.isOk, Except.toBool]
              · rcases check_args_with_affine input.sizes ns
                    (some gamma.sizes) (some beta.sizes) a b with
                  e | (_ | ⟨n1, n2⟩) <;>
                  simp [Except.isOk, Except.toBool]

end ApexLayerNorm
